import Mathlib

/-!
Verification of the Pixalyze frontend service layer
(`src/frontend/src/services/api.js`, `src/frontend/src/store/useStore.js`,
the FilterPanel and NoisePanel components) against its specification.

JavaScript `Map` objects keyed by strings are embedded as association
lists in insertion order: `Map.get` finds the unique entry, `Map.set`
replaces the value in place when the key is present and appends
otherwise, `Map.delete` removes the first (unique) matching entry, and
`Map.keys().next().value` is the key of the head entry.  Time stamps
(`Date.now()`) are natural numbers; the JavaScript freshness test
`now - ts < CACHE_TTL` over integers is embedded as `now < ts + CACHE_TTL`,
which is equivalent for all integer values.
-/

set_option autoImplicit false

/-- Insertion-order model of a JavaScript `Map` with string keys. -/
abbrev JsMap (β : Type) : Type := List (String × β)

/-- Model of `Map.get k`: value of the unique entry with key `k`, if present. -/
def jsMapGet {β : Type} (k : String) : List (String × β) → Option β
  | [] => none
  | e :: t => if e.1 = k then some e.2 else jsMapGet k t

/-- Model of `Map.set k v`: replace in place when `k` is present, append otherwise. -/
def jsMapSet {β : Type} (k : String) (v : β) : List (String × β) → List (String × β)
  | [] => [(k, v)]
  | e :: t => if e.1 = k then (k, v) :: t else e :: jsMapSet k v t

/-- Model of `Map.delete k`: remove the first entry with key `k` (keys are unique). -/
def jsMapDelete {β : Type} (k : String) : List (String × β) → List (String × β)
  | [] => []
  | e :: t => if e.1 = k then t else e :: jsMapDelete k t

/-- Model of `Map.keys().next().value`: the key of the first (earliest-inserted) entry. -/
def jsMapFirstKey {β : Type} : List (String × β) → Option String
  | [] => none
  | e :: _ => some e.1

/-- The constant `CACHE_TTL = 60000` (api.js line 82). -/
def CACHE_TTL : Nat := 60000

/-- The `responseCache` holds, per key, the stored payload and its write time:
`responseCache.set(key, \x7b data, timestamp: Date.now() \x7d)`. -/
abbrev Cache (α : Type) : Type := List (String × (α × Nat))

/-- Embedding of `getCached` (api.js lines 84-91): return fresh data and leave the map
untouched, otherwise delete the key and return null.  The hit test is
`Date.now() - cached.timestamp < CACHE_TTL`, embedded as
`now < timestamp + CACHE_TTL`. -/
def getCached {α : Type} (now : Nat) (key : String) (c : Cache α) : Option α × Cache α :=
  match jsMapGet key c with
  | some cached =>
      if now < cached.2 + CACHE_TTL then (some cached.1, c)
      else (none, jsMapDelete key c)
  | none => (none, jsMapDelete key c)

/-- Embedding of `setCache` (api.js lines 93-100): when `responseCache.size > 100`,
delete the first key of the map, then store the new entry. -/
def setCache {α : Type} (now : Nat) (key : String) (d : α) (c : Cache α) : Cache α :=
  let c1 :=
    if 100 < c.length then
      match jsMapFirstKey c with
      | some firstKey => jsMapDelete firstKey c
      | none => c
    else c
  jsMapSet key (d, now) c1

/-- Simplified JSON scalar values appearing in request bodies. -/
inductive JVal : Type where
  | jnum (n : Int)
  | jstr (s : String)
deriving DecidableEq

/-- Rendering of a scalar value, as `JSON.stringify` prints it. -/
def jvalStringify : JVal → String
  | JVal.jnum n => toString n
  | JVal.jstr s => "\"" ++ s ++ "\""

/-- Rendering of `JSON.stringify` of an object: fields rendered in insertion order
(JavaScript objects preserve insertion order for string-named keys);
there is no sorting and no numeric reformatting. -/
def jsonStringify (data : List (String × JVal)) : String :=
  "\x7b" ++ String.intercalate "," (data.map (fun p => "\"" ++ p.1 ++ "\":" ++ jvalStringify p.2)) ++ "\x7d"

/-- Embedding of `getRequestKey` (api.js lines 18-20):
the template literal method:url:JSON.stringify(config.data or empty object). -/
def getRequestKey (method url : String) (data : List (String × JVal)) : String :=
  method ++ ":" ++ url ++ ":" ++ jsonStringify data

/-- State of the request-deduplication machinery (api.js lines 7, 23-65):
`pendingRequests` maps request keys to abort-controller ids, `aborted`
records every controller whose `abort()` was called, `nextId` numbers the
controllers in creation order, and `started` counts the requests that
passed the request interceptor (each such request is dispatched by axios,
i.e. starts its own computation). -/
structure PendingState : Type where
  pending : List (String × Nat)
  aborted : List Nat
  nextId : Nat
  started : Nat
deriving DecidableEq

/-- Initial state: `const pendingRequests = new Map()`. -/
def initPending : PendingState := ⟨[], [], 0, 0⟩

/-- The request interceptor (api.js lines 23-40): if the key is already
pending, abort that controller; then create a fresh controller, register
it under the key, and let the request proceed. -/
def requestInterceptor (key : String) (s : PendingState) : PendingState :=
  let s1 :=
    match jsMapGet key s.pending with
    | some c => { s with aborted := c :: s.aborted }
    | none => s
  { s1 with
      pending := jsMapSet key s1.nextId s1.pending
      nextId := s1.nextId + 1
      started := s1.started + 1 }

/-- The fulfilled branch of the response interceptor (api.js lines 44-48):
remove the key from the pending map. -/
def responseInterceptorFulfilled (key : String) (s : PendingState) : PendingState :=
  { s with pending := jsMapDelete key s.pending }

/-- Issue a batch of concurrent requests: each one runs the request
interceptor before any response arrives. -/
def processRequests (keys : List String) : PendingState :=
  keys.foldl (fun s k => requestInterceptor k s) initPending

/-- The list `[m-1, m-2, ..., 0]`: the controllers aborted after `m` duplicates
of the same key have displaced their predecessors. -/
def countdown : Nat → List Nat
  | 0 => []
  | m + 1 => m :: countdown m

/-- Cache effect of `imageAPI.delete` (api.js lines 132-137): after the
DELETE request it runs only `responseCache.delete` of the image key. -/
def imageAPI_deleteCacheUpdate {α : Type} (imageId : String) (c : Cache α) : Cache α :=
  jsMapDelete ("image:" ++ imageId) c

/-- Embedding of `histogramAPI.calculate` (api.js lines 147-155) as a cache-state
transformer.  `resp` is the outcome the network request would produce;
the returned Bool records whether a request was actually issued
(`true` exactly when `api.get` runs).  On a cache hit the cached data is
returned; on a miss the response is stored only when the request
succeeds, and an error propagates before `setCache` is reached. -/
def histogramAPI_calculate {α : Type} (now : Nat) (imageId : String)
    (resp : Except String α) (c : Cache α) : Except String α × Cache α × Bool :=
  let cacheKey := "histogram:" ++ imageId
  match getCached now cacheKey c with
  | (some d, c1) => (Except.ok d, c1, false)
  | (none, c1) =>
      match resp with
      | Except.ok v => (Except.ok v, setCache now cacheKey v c1, true)
      | Except.error e => (Except.error e, c1, true)

/-- Embedding of `filterAPI.apply` (api.js lines 188-196) as a cache-state transformer:
it always posts to `/filters/apply` (with `use_cache: true` for the
backend) and never reads or writes the frontend `responseCache`. -/
def filterAPI_apply {α : Type} (now : Nat) (imageId filterType : String)
    (params : List (String × JVal)) (resp : Except String α) (c : Cache α) :
    Except String α × Cache α × Bool :=
  (resp, c, true)

/- ### Helper lemmas on the JS map model -/

theorem jsMapGet_set_self {β : Type} (k : String) (v : β) :
    ∀ c : List (String × β), jsMapGet k (jsMapSet k v c) = some v := by
  intro c
  induction c with
  | nil => simp [jsMapGet, jsMapSet]
  | cons e t ih =>
      by_cases h : e.1 = k
      · simp [jsMapGet, jsMapSet, h]
      · simp [jsMapGet, jsMapSet, h, ih]

theorem jsMapGet_delete_self {β : Type} (k : String) :
    ∀ c : List (String × β), (∀ p ∈ c, p.1 = k → False) → jsMapGet k c = none := by
  intro c
  induction c with
  | nil => intro _; rfl
  | cons e t ih =>
      intro h
      have he : ¬ e.1 = k := fun hk => h e (List.mem_cons_self e t) hk
      simp only [jsMapGet, if_neg he]
      exact ih (fun p hp hk => h p (List.mem_cons_of_mem e hp) hk)

theorem jsMapGet_of_delete_unique {β : Type} (k : String) :
    ∀ c : List (String × β), (List.Pairwise (fun a b => a.1 ≠ b.1) c) →
      jsMapGet k (jsMapDelete k c) = none := by
  intro c
  induction c with
  | nil => intro _; rfl
  | cons e t ih =>
      intro hp
      by_cases h : e.1 = k
      · simp only [jsMapDelete, if_pos h]
        apply jsMapGet_delete_self
        intro p hpmem hpk
        have := (List.pairwise_cons.mp hp).1 p hpmem
        exact this (h ▸ hpk ▸ rfl)
      · simp only [jsMapDelete, if_neg h, jsMapGet, if_neg h]
        exact ih (List.pairwise_cons.mp hp).2

theorem length_jsMapDelete_le {β : Type} (k : String) :
    ∀ c : List (String × β), (jsMapDelete k c).length ≤ c.length := by
  intro c
  induction c with
  | nil => simp [jsMapDelete]
  | cons e t ih =>
      by_cases h : e.1 = k
      · simp only [jsMapDelete, if_pos h, List.length_cons]
        omega
      · simp only [jsMapDelete, if_neg h, List.length_cons]
        omega

theorem length_jsMapSet_le {β : Type} (k : String) (v : β) :
    ∀ c : List (String × β), (jsMapSet k v c).length ≤ c.length + 1 := by
  intro c
  induction c with
  | nil => simp [jsMapSet]
  | cons e t ih =>
      by_cases h : e.1 = k
      · simp [jsMapSet, h]
      · simp [jsMapSet, h]
        omega

theorem jsMapDelete_cons_self {β : Type} (e : String × β) (t : List (String × β)) :
    jsMapDelete e.1 (e :: t) = t := by
  simp [jsMapDelete]

/- ### UI parameter controls (FilterPanel and NoisePanel) -/

/-- An HTML range input with its `min`, `max` and `step` attributes.
Attribute values are held in hundredths (the value 1 is stored as 100,
the value 0.1 as 10): every numeric attribute in the source is a
multiple of 0.01, so this scaling is exact, and it keeps all arithmetic
over integers. -/
structure Slider : Type where
  min : Int
  max : Int
  step : Int
deriving DecidableEq

/-- Number of positions of a range input: `floor((max - min) / step) + 1`. -/
def sliderCount (s : Slider) : Nat :=
  ((s.max - s.min) / s.step).toNat + 1

/-- The values a range input allows: `min, min + step, ...` up to `max`
(in hundredths). -/
def sliderValues (s : Slider) : List Int :=
  (List.range (sliderCount s)).map (fun n => s.min + n * s.step)

/-- Substring occurrence over character lists (structural recursion). -/
def listContainsSub (pat : List Char) : List Char → Bool
  | [] => pat.isEmpty
  | c :: cs => pat.isPrefixOf (c :: cs) || listContainsSub pat cs

/-- JavaScript `String.prototype.includes`. -/
def jsIncludes (s pat : String) : Bool :=
  listContainsSub pat.data s.data

/-- Embedding of `renderParameterInput` of the FilterPanel (ResultsDisplay.jsx lines
228-246): the slider range chosen for a numeric parameter by substring
matching on its name, starting from the defaults min 0, max 100, step 1. -/
def renderParameterRange (key : String) : Slider :=
  if jsIncludes key "kernel" || jsIncludes key "ksize" then ⟨100, 2100, 200⟩
  else if jsIncludes key "sigma" then ⟨0, 1000, 10⟩
  else if jsIncludes key "threshold" then ⟨0, 25500, 100⟩
  else if jsIncludes key "strength" then ⟨0, 500, 10⟩
  else if key = "d" then ⟨100, 2100, 200⟩
  else ⟨0, 10000, 100⟩

/-- The `noiseParamConfigs` of the NoisePanel (src/unnamed/part_002). -/
def noiseParamConfigs : List (String × Slider) :=
  [("mean", ⟨-5000, 5000, 100⟩), ("std", ⟨100, 10000, 100⟩), ("amount", ⟨1, 50, 1⟩),
   ("salt_ratio", ⟨0, 100, 10⟩), ("scale", ⟨10, 500, 10⟩),
   ("low", ⟨-10000, 0, 500⟩), ("high", ⟨0, 10000, 500⟩)]

/-- The `denoiseParamConfigs` of the NoisePanel (src/unnamed/part_002 lines
109-118). -/
def denoiseParamConfigs : List (String × Slider) :=
  [("kernel_size", ⟨300, 2100, 200⟩), ("sigma", ⟨10, 1000, 10⟩), ("d", ⟨300, 2100, 200⟩),
   ("sigma_color", ⟨1000, 20000, 500⟩), ("sigma_space", ⟨1000, 20000, 500⟩),
   ("h", ⟨100, 3000, 100⟩), ("template_window_size", ⟨300, 2100, 200⟩),
   ("search_window_size", ⟨700, 5100, 200⟩)]

/- ### The zustand store action `applyFilter` (useStore.js lines 166-202) -/

/-- The `processedData` object built by `applyFilter` on success. -/
structure ProcessedData : Type where
  url : String
  filterType : String
  params : List (String × JVal)
  cached : Bool
deriving DecidableEq

/-- An `imageHistory` entry as built by `addToHistory` (useStore.js
lines 88-93). -/
structure HistoryEntry : Type where
  data : ProcessedData
  operation : String
  timestamp : Nat
deriving DecidableEq

/-- The store fields `applyFilter` touches.  `currentImage` is reduced to
the image id, the only part the action reads. -/
structure StoreState : Type where
  currentImage : Option String
  processedImage : Option ProcessedData
  imageHistory : List HistoryEntry
  isLoading : Bool
deriving DecidableEq

/-- The response body of a successful `/filters/apply` call, with the
defensive `result.cancelled` flag the action checks. -/
structure FilterResp : Type where
  result_image : String
  cached : Bool
  cancelled : Bool
deriving DecidableEq

/-- Outcome of `await filterAPI.apply`: resolved with data, rejected with
the cancellation marker the response interceptor produces for aborted
requests, or rejected with an error message. -/
inductive FilterOutcome : Type where
  | resolved (r : FilterResp)
  | rejectedCancelled
  | rejectedError (message : String)
deriving DecidableEq

/-- Observable result of one `applyFilter` run: the final store state,
the error re-thrown to the caller (if any), and the message reported via
`toast.error` (if any). -/
structure ApplyFilterRun : Type where
  state : StoreState
  thrown : Option String
  toastedError : Option String
deriving DecidableEq

/-- Embedding of `applyFilter` (useStore.js lines 166-202): return early without a
current image; otherwise set `isLoading`, await the request, on success
(unless the result carries the cancelled marker) set `processedImage`
and append to `imageHistory`; on a cancelled rejection neither rethrow
nor report; on an error rejection report via `toast.error` and rethrow;
the `finally` block always clears `isLoading`. -/
def applyFilter (st : StoreState) (filterType : String) (params : List (String × JVal))
    (now : Nat) (outcome : FilterOutcome) : ApplyFilterRun :=
  match st.currentImage with
  | none => ⟨st, none, none⟩
  | some _ =>
      let st1 : StoreState := { st with isLoading := true }
      match outcome with
      | FilterOutcome.resolved r =>
          if r.cancelled then ⟨{ st1 with isLoading := false }, none, none⟩
          else
            let pd : ProcessedData := ⟨r.result_image, filterType, params, r.cached⟩
            let st2 : StoreState :=
              { st1 with
                  processedImage := some pd
                  imageHistory := st1.imageHistory ++ [⟨pd, "Filter: " ++ filterType, now⟩] }
            ⟨{ st2 with isLoading := false }, none, none⟩
      | FilterOutcome.rejectedCancelled => ⟨{ st1 with isLoading := false }, none, none⟩
      | FilterOutcome.rejectedError msg => ⟨{ st1 with isLoading := false }, some msg, some msg⟩

/- ### Histogram equalization (backend engine, modelled from the spec) -/

/-- Modelled from the spec: total pixel count of a grayscale raster
(the backend engine source is not in the repository snapshot; only the
spec describes `equalize_global`). -/
def totalPixels (img : List (List Nat)) : Nat := img.flatten.length

/-- Modelled from the spec: the unnormalized CDF of pixel intensities,
the count of samples with intensity at most `v` (cumulative sum of the
256-bin histogram up to bin `v`). -/
def pixelCDF (img : List (List Nat)) (v : Nat) : Nat :=
  (img.flatten.filter (fun p => decide (p ≤ v))).length

/-- Rounding of the ratio `a / b` to the nearest natural number, ties
upward: `round(a / b) = floor((a + b/2) / b) = (2a + b) / (2b)` with
exact integer division. -/
def roundDiv (a b : Nat) : Nat := (2 * a + b) / (2 * b)

/-- Modelled from the spec: `equalize_global` per the stated semantics
`output = round(255 * CDF(input) / total_pixels)`, applied per pixel of a
grayscale raster. -/
def equalize_global (img : List (List Nat)) : List (List Nat) :=
  img.map (fun row =>
    row.map (fun p => roundDiv (255 * pixelCDF img p) (totalPixels img)))

/-- The 4 by 4 grayscale image whose every pixel equals 128. -/
def img128 : List (List Nat) := List.replicate 4 (List.replicate 4 128)

/- ### Sequences of cache operations (for the size invariant) -/

/-- The three ways client code touches `responseCache`: a `getCached`
lookup, a `setCache` insert, and a direct `responseCache.delete` (as in
`imageAPI.delete`). -/
inductive CacheOp (α : Type) : Type where
  | get (now : Nat) (key : String)
  | set (now : Nat) (key : String) (d : α)
  | del (key : String)

/-- Apply one cache operation to the cache state. -/
def applyCacheOp {α : Type} (c : Cache α) : CacheOp α → Cache α
  | CacheOp.get now key => (getCached now key c).2
  | CacheOp.set now key d => setCache now key d c
  | CacheOp.del key => jsMapDelete key c

/-- Run a sequence of cache operations from the initial empty cache. -/
def runCacheOps {α : Type} (ops : List (CacheOp α)) : Cache α :=
  ops.foldl applyCacheOp []

/- ### Concrete caches for the eviction scenario -/

/-- One hundred cache entries `k1 .. k100`, inserted after `k0`, each with data
and timestamp equal to its index. -/
def bigCacheRest : Cache Nat :=
  (List.range 100).map (fun i => ("k" ++ toString (i + 1), (i + 1, i + 1)))

/-- A 101-entry cache whose earliest-inserted entry is `k0`. -/
def bigCache : Cache Nat := ("k0", (0, 0)) :: bigCacheRest

/- ### Size bound on the response cache -/

theorem applyCacheOp_length_le {α : Type} (c : Cache α) (op : CacheOp α)
    (h : c.length ≤ 101) : (applyCacheOp c op).length ≤ 101 := by
  cases op with
  | get now key =>
      have hle : ((getCached now key c).2).length ≤ c.length := by
        unfold getCached
        cases hg : jsMapGet key c with
        | none => simpa using length_jsMapDelete_le key c
        | some cached =>
            by_cases ht : now < cached.2 + CACHE_TTL
            · simp [ht]
            · simpa [ht] using length_jsMapDelete_le key c
      simp only [applyCacheOp]
      omega
  | set now key d =>
      simp only [applyCacheOp, setCache]
      by_cases hlen : 100 < c.length
      · cases c with
        | nil => simp at hlen
        | cons e t =>
            simp only [if_pos hlen, jsMapFirstKey, jsMapDelete_cons_self]
            have := length_jsMapSet_le key (d, now) t
            simp only [List.length_cons] at h hlen
            omega
      · simp only [if_neg hlen]
        have := length_jsMapSet_le key (d, now) c
        omega
  | del key =>
      have := length_jsMapDelete_le key c
      simp only [applyCacheOp]
      omega

theorem foldl_cacheOps_length {α : Type} :
    ∀ (ops : List (CacheOp α)) (c : Cache α), c.length ≤ 101 →
      (ops.foldl applyCacheOp c).length ≤ 101 := by
  intro ops
  induction ops with
  | nil => intro c h; simpa using h
  | cons op rest ih =>
      intro c h
      exact ih _ (applyCacheOp_length_le c op h)

/-- Claim C9 (confirmed): starting from the empty cache, any sequence of
getCached, setCache and delete operations leaves at most 101 entries in
the response cache, and an insert evicts only when the size strictly
exceeds 100 (a setCache on a cache of at most 100 entries is a plain
map update with no eviction). -/
theorem responseCache_size_bound :
    (∀ (α : Type) (ops : List (CacheOp α)), (runCacheOps ops).length ≤ 101) ∧
    (∀ (α : Type) (now : Nat) (key : String) (d : α) (c : Cache α),
      c.length ≤ 100 → setCache now key d c = jsMapSet key (d, now) c) := by
  constructor
  · intro α ops
    exact foldl_cacheOps_length ops [] (by simp)
  · intro α now key d c h
    simp only [setCache, if_neg (by omega : ¬ 100 < c.length)]

/-- Claim C9 witness: the bound and the no-eviction equation at concrete
inputs. -/
theorem responseCache_size_bound_witness :
    (runCacheOps [CacheOp.set 0 "a" (1 : Nat), CacheOp.get 5 "a", CacheOp.del "a"]).length ≤ 101 ∧
    setCache 0 "a" (1 : Nat) [] = jsMapSet "a" ((1 : Nat), 0) [] :=
  ⟨responseCache_size_bound.1 Nat _, responseCache_size_bound.2 Nat 0 "a" 1 [] (by decide)⟩

/- ### Request deduplication by abort-and-replace -/

theorem mem_countdown (i : Nat) : ∀ m : Nat, i ∈ countdown m ↔ i < m := by
  intro m
  induction m with
  | zero => simp [countdown]
  | succ j ih =>
      simp only [countdown, List.mem_cons, ih]
      omega

theorem processRequests_replicate (k : String) :
    ∀ n : Nat, 1 ≤ n →
      processRequests (List.replicate n k) =
        ⟨[(k, n - 1)], countdown (n - 1), n, n⟩ := by
  intro n
  induction n with
  | zero => intro h; omega
  | succ m ih =>
      intro _
      by_cases hm : m = 0
      · subst hm; rfl
      · have hm1 : 1 ≤ m := by omega
        have hstep : processRequests (List.replicate (m + 1) k) =
            requestInterceptor k (processRequests (List.replicate m k)) := by
          simp only [processRequests, List.replicate_succ', List.foldl_append, List.foldl_cons,
            List.foldl_nil]
        rw [hstep, ih hm1]
        obtain ⟨m0, rfl⟩ : ∃ m0, m = m0 + 1 := ⟨m - 1, by omega⟩
        simp [requestInterceptor, jsMapGet, jsMapSet, countdown]

/-- Claim C1 (amended): the dedup discipline is abort-and-replace, not
first-wins-join.  When N concurrent requests with the same key pass the
request interceptor, N computations are started (one per request); each
duplicate aborts the controller already in flight, so afterwards exactly
the controller of the last request is pending, the last controller is
not aborted, and the controllers of all N-1 earlier requests are
aborted (their callers receive cancellations, their results are lost). -/
theorem requestDedup_lastWins (k : String) (n : Nat) (h : 1 ≤ n) :
    (processRequests (List.replicate n k)).started = n ∧
    (processRequests (List.replicate n k)).pending = [(k, n - 1)] ∧
    (n - 1) ∉ (processRequests (List.replicate n k)).aborted ∧
    (∀ i : Nat, i ∈ (processRequests (List.replicate n k)).aborted ↔ i < n - 1) := by
  rw [processRequests_replicate k n h]
  refine ⟨rfl, rfl, ?_, ?_⟩
  · intro hmem
    have := (mem_countdown (n - 1) (n - 1)).mp hmem
    omega
  · intro i
    exact mem_countdown i (n - 1)

/-- Claim C1 witness: two concurrent identical requests, evaluated. -/
theorem requestDedup_lastWins_witness :
    (processRequests (List.replicate 2 "a")).started = 2 ∧
    (processRequests (List.replicate 2 "a")).pending = [("a", 1)] ∧
    1 ∉ (processRequests (List.replicate 2 "a")).aborted :=
  ⟨(requestDedup_lastWins "a" 2 (by decide)).1,
   (requestDedup_lastWins "a" 2 (by decide)).2.1,
   (requestDedup_lastWins "a" 2 (by decide)).2.2.1⟩

/-- Claim C1 counterexample: two concurrent requests with the same key
start two computations, not exactly one, and the first controller is
aborted, so the first computation does not win and its requester loses
its result. -/
theorem requestDedup_counterexample :
    (processRequests (List.replicate 2 "post:/filters/apply:\x7b\x7d")).started = 2 ∧
    ¬ (processRequests (List.replicate 2 "post:/filters/apply:\x7b\x7d")).started = 1 ∧
    0 ∈ (processRequests (List.replicate 2 "post:/filters/apply:\x7b\x7d")).aborted := by
  decide

/- ### Reduction lemmas for getCached and histogramAPI_calculate -/

theorem getCached_miss_eq {α : Type} (now : Nat) (key : String) (c : Cache α)
    (h : (getCached now key c).1 = none) :
    getCached now key c = (none, jsMapDelete key c) := by
  unfold getCached at h ⊢
  cases hg : jsMapGet key c with
  | none => rfl
  | some cached =>
      rw [hg] at h
      by_cases ht : now < cached.2 + CACHE_TTL
      · simp [ht] at h
      · simp [ht]

theorem getCached_hit {α : Type} (now : Nat) (key : String) (c : Cache α) (e : α × Nat)
    (hg : jsMapGet key c = some e) (ht : now < e.2 + CACHE_TTL) :
    getCached now key c = (some e.1, c) := by
  simp [getCached, hg, ht]

theorem getCached_expired {α : Type} (now : Nat) (key : String) (c : Cache α) (e : α × Nat)
    (hg : jsMapGet key c = some e) (ht : ¬ now < e.2 + CACHE_TTL) :
    getCached now key c = (none, jsMapDelete key c) := by
  simp [getCached, hg, ht]

theorem histogramAPI_calculate_miss {α : Type} (now : Nat) (imageId : String)
    (resp : Except String α) (c c1 : Cache α)
    (h : getCached now ("histogram:" ++ imageId) c = (none, c1)) :
    histogramAPI_calculate now imageId resp c =
      match resp with
      | Except.ok v => (Except.ok v, setCache now ("histogram:" ++ imageId) v c1, true)
      | Except.error e => (Except.error e, c1, true) := by
  simp only [histogramAPI_calculate, h]

theorem histogramAPI_calculate_hit {α : Type} (now : Nat) (imageId : String)
    (resp : Except String α) (c : Cache α) (d : α)
    (h : getCached now ("histogram:" ++ imageId) c = (some d, c)) :
    histogramAPI_calculate now imageId resp c = (Except.ok d, c, false) := by
  simp only [histogramAPI_calculate, h]

/- ### Cache-key serialization -/

theorem string_append_cancel_left (a b c : String) : a ++ b = a ++ c ↔ b = c := by
  constructor
  · intro h
    have hd := congrArg String.data h
    simp only [String.data_append] at hd
    exact String.ext (List.append_cancel_left hd)
  · intro h
    rw [h]

/-- Claim C4 counterexample: two parameter maps with the same name-value
pairs inserted in different orders (they are permutations of each other)
produce different request keys, because the key serializes fields in
insertion order rather than sorted by name. -/
theorem getRequestKey_counterexample :
    List.Perm [("kernel_size", JVal.jnum 5), ("sigma", JVal.jnum 1)]
      [("sigma", JVal.jnum 1), ("kernel_size", JVal.jnum 5)] ∧
    getRequestKey "post" "/filters/apply" [("kernel_size", JVal.jnum 5), ("sigma", JVal.jnum 1)] ≠
      getRequestKey "post" "/filters/apply" [("sigma", JVal.jnum 1), ("kernel_size", JVal.jnum 5)] := by
  constructor
  · decide
  · decide

/-- Claim C4 (amended): cache-key computation is order-dependent.  For a
fixed method and url, two request keys coincide exactly when the
JSON serializations of the two parameter objects coincide, and the
serialization renders fields in insertion order with no sorting and no
numeric reformatting, so maps that are equal as maps but were built in
different insertion orders can yield different keys. -/
theorem getRequestKey_insertion_order (m u : String) (d1 d2 : List (String × JVal)) :
    getRequestKey m u d1 = getRequestKey m u d2 ↔ jsonStringify d1 = jsonStringify d2 := by
  unfold getRequestKey
  exact string_append_cancel_left (m ++ ":" ++ u ++ ":") (jsonStringify d1) (jsonStringify d2)

/- ### Image deletion and per-image cache entries -/

/-- Claim C2 (code bug): deleting image 1 clears only the `image:1`
entry of the response cache; a `histogram:1` entry survives and a
subsequent lookup still hits it, contrary to the requirement that all
entries keyed to the deleted image identity be invalidated. -/
theorem imageDelete_leaves_histogram :
    jsMapGet "image:1"
      (imageAPI_deleteCacheUpdate "1"
        ([("image:1", ("blob", 0)), ("histogram:1", ("hist", 0))] : Cache String)) = none ∧
    jsMapGet "histogram:1"
      (imageAPI_deleteCacheUpdate "1"
        ([("image:1", ("blob", 0)), ("histogram:1", ("hist", 0))] : Cache String)) =
      some ("hist", 0) ∧
    (getCached 1000 "histogram:1"
      (imageAPI_deleteCacheUpdate "1"
        ([("image:1", ("blob", 0)), ("histogram:1", ("hist", 0))] : Cache String))).1 =
      some "hist" := by
  decide

/- ### Sequential cache-mediated calls -/

/-- Claim C5 counterexample: filter application is not mediated by the
frontend response cache at all.  Two sequential `filterAPI.apply` calls
with identical parameters both issue the request (the second call
re-invokes the computation), and the first call writes nothing into the
response cache. -/
theorem filterApply_counterexample :
    (filterAPI_apply 1 "1" "blur" [("kernel_size", JVal.jnum 5)] (Except.ok "img")
      (filterAPI_apply 0 "1" "blur" [("kernel_size", JVal.jnum 5)] (Except.ok "img")
        ([] : Cache String)).2.1).2.2 = true ∧
    (filterAPI_apply 0 "1" "blur" [("kernel_size", JVal.jnum 5)] (Except.ok "img")
      ([] : Cache String)).2.1 = ([] : Cache String) :=
  ⟨rfl, rfl⟩

/-- Claim C5 (amended): for the operations that do go through the
frontend response cache (here the histogram calculation), a first call
that misses stores the computed response, and a second sequential call
for the same image within the TTL returns the identical result without
issuing a request; filter application bypasses this cache entirely and
issues a request on every call. -/
theorem histogramCalculate_cached (α : Type) (t1 t2 : Nat) (imageId : String) (v : α)
    (resp2 : Except String α) (c : Cache α)
    (hmiss : (getCached t1 ("histogram:" ++ imageId) c).1 = none)
    (hts : t2 < t1 + CACHE_TTL) :
    (histogramAPI_calculate t1 imageId (Except.ok v) c).1 = Except.ok v ∧
    (histogramAPI_calculate t1 imageId (Except.ok v) c).2.2 = true ∧
    (histogramAPI_calculate t2 imageId resp2
      (histogramAPI_calculate t1 imageId (Except.ok v) c).2.1).1 = Except.ok v ∧
    (histogramAPI_calculate t2 imageId resp2
      (histogramAPI_calculate t1 imageId (Except.ok v) c).2.1).2.2 = false ∧
    (∀ t3 : Nat, t3 < t1 + CACHE_TTL →
      (filterAPI_apply t3 imageId "blur" [] (Except.ok v)
        (histogramAPI_calculate t1 imageId (Except.ok v) c).2.1).2.2 = true) := by
  have hm := getCached_miss_eq t1 ("histogram:" ++ imageId) c hmiss
  have h1 : histogramAPI_calculate t1 imageId (Except.ok v) c =
      (Except.ok v,
        setCache t1 ("histogram:" ++ imageId) v (jsMapDelete ("histogram:" ++ imageId) c),
        true) :=
    histogramAPI_calculate_miss t1 imageId (Except.ok v) c _ hm
  have hget2 : jsMapGet ("histogram:" ++ imageId)
      (setCache t1 ("histogram:" ++ imageId) v (jsMapDelete ("histogram:" ++ imageId) c)) =
      some (v, t1) := by
    unfold setCache
    exact jsMapGet_set_self ("histogram:" ++ imageId) (v, t1) _
  have hc2 := getCached_hit t2 ("histogram:" ++ imageId) _ (v, t1) hget2 hts
  have h2 : histogramAPI_calculate t2 imageId resp2
      (setCache t1 ("histogram:" ++ imageId) v (jsMapDelete ("histogram:" ++ imageId) c)) =
      (Except.ok v,
        setCache t1 ("histogram:" ++ imageId) v (jsMapDelete ("histogram:" ++ imageId) c),
        false) :=
    histogramAPI_calculate_hit t2 imageId resp2 _ v hc2
  refine ⟨by simp [h1], by simp [h1], by simp [h1, h2], by simp [h1, h2], ?_⟩
  intro t3 _
  rfl

/-- Claim C5 witness: the histogram caching property evaluated at a
concrete cache, image and time stamps. -/
theorem histogramCalculate_cached_witness :
    (histogramAPI_calculate 0 "1" (Except.ok "h") ([] : Cache String)).1 = Except.ok "h" ∧
    (histogramAPI_calculate 0 "1" (Except.ok "h") ([] : Cache String)).2.2 = true ∧
    (histogramAPI_calculate 1 "1" (Except.error "x")
      (histogramAPI_calculate 0 "1" (Except.ok "h") ([] : Cache String)).2.1).1 =
      Except.ok "h" ∧
    (histogramAPI_calculate 1 "1" (Except.error "x")
      (histogramAPI_calculate 0 "1" (Except.ok "h") ([] : Cache String)).2.1).2.2 = false :=
  ⟨(histogramCalculate_cached String 0 1 "1" "h" (Except.error "x") [] (by decide) (by decide)).1,
   (histogramCalculate_cached String 0 1 "1" "h" (Except.error "x") [] (by decide) (by decide)).2.1,
   (histogramCalculate_cached String 0 1 "1" "h" (Except.error "x") [] (by decide) (by decide)).2.2.1,
   (histogramCalculate_cached String 0 1 "1" "h" (Except.error "x") [] (by decide) (by decide)).2.2.2.1⟩

/- ### Failure handling in cache-mediated calls -/

/-- Claim C6 counterexample: when the lookup finds an already-expired
entry for the key and the computation then fails, the cache state for
the key does change on the erroring call — the expired entry was removed
by the lazy TTL check during lookup.  So the claim that cache state for
the key is unchanged on error is false as stated. -/
theorem histogramError_counterexample :
    (histogramAPI_calculate 60000 "1" (Except.error "boom")
      ([("histogram:1", ("old", 0))] : Cache String)).1 = Except.error "boom" ∧
    jsMapGet "histogram:1" ([("histogram:1", ("old", 0))] : Cache String) = some ("old", 0) ∧
    jsMapGet "histogram:1"
      (histogramAPI_calculate 60000 "1" (Except.error "boom")
        ([("histogram:1", ("old", 0))] : Cache String)).2.1 = none :=
  ⟨rfl, rfl, rfl⟩

/-- Claim C6 (amended): if the computation behind the cache fails, the
failure is propagated to the caller unchanged, no entry is cached for
the key (a later call for the same key issues the request again), and
the failing call leaves the cache exactly equal to the lookup-updated
cache — no partial or corrupt entry is written; the only possible change
to the state of the key is the removal of an already-expired entry by
the lazy TTL check performed during the lookup itself. -/
theorem histogramError_propagates (α : Type) (now : Nat) (imageId e : String) (c : Cache α)
    (huniq : List.Pairwise (fun a b => a.1 ≠ b.1) c)
    (hmiss : (getCached now ("histogram:" ++ imageId) c).1 = none) :
    (histogramAPI_calculate now imageId (Except.error e) c).1 = Except.error e ∧
    (histogramAPI_calculate now imageId (Except.error e) c).2.1 =
      jsMapDelete ("histogram:" ++ imageId) c ∧
    jsMapGet ("histogram:" ++ imageId)
      (histogramAPI_calculate now imageId (Except.error e) c).2.1 = none ∧
    (∀ (now2 : Nat) (resp2 : Except String α),
      (histogramAPI_calculate now2 imageId resp2
        (histogramAPI_calculate now imageId (Except.error e) c).2.1).2.2 = true) := by
  have hm := getCached_miss_eq now ("histogram:" ++ imageId) c hmiss
  have h1 : histogramAPI_calculate now imageId (Except.error e) c =
      (Except.error e, jsMapDelete ("histogram:" ++ imageId) c, true) :=
    histogramAPI_calculate_miss now imageId (Except.error e) c _ hm
  have hgone : jsMapGet ("histogram:" ++ imageId)
      (jsMapDelete ("histogram:" ++ imageId) c) = none :=
    jsMapGet_of_delete_unique ("histogram:" ++ imageId) c huniq
  refine ⟨by simp [h1], by simp [h1], by simp [h1, hgone], ?_⟩
  intro now2 resp2
  have hm2 : getCached now2 ("histogram:" ++ imageId)
      (jsMapDelete ("histogram:" ++ imageId) c) =
      (none, jsMapDelete ("histogram:" ++ imageId)
        (jsMapDelete ("histogram:" ++ imageId) c)) := by
    simp [getCached, hgone]
  have h2 := histogramAPI_calculate_miss now2 imageId resp2 _ _ hm2
  cases resp2 with
  | ok v => simp [h1, h2]
  | error e2 => simp [h1, h2]

/-- Claim C6 witness: the amended failure-handling property evaluated at
the empty cache. -/
theorem histogramError_propagates_witness :
    (histogramAPI_calculate 0 "1" (Except.error "boom") ([] : Cache String)).1 =
      Except.error "boom" ∧
    (histogramAPI_calculate 0 "1" (Except.error "boom") ([] : Cache String)).2.1 =
      jsMapDelete "histogram:1" ([] : Cache String) ∧
    jsMapGet "histogram:1"
      (histogramAPI_calculate 0 "1" (Except.error "boom") ([] : Cache String)).2.1 = none ∧
    (histogramAPI_calculate 5 "1" (Except.ok "x")
      (histogramAPI_calculate 0 "1" (Except.error "boom") ([] : Cache String)).2.1).2.2 =
      true :=
  ⟨(histogramError_propagates String 0 "1" "boom" [] (by simp) (by decide)).1,
   (histogramError_propagates String 0 "1" "boom" [] (by simp) (by decide)).2.1,
   (histogramError_propagates String 0 "1" "boom" [] (by simp) (by decide)).2.2.1,
   (histogramError_propagates String 0 "1" "boom" [] (by simp) (by decide)).2.2.2 5
     (Except.ok "x")⟩

/- ### Eviction policy of the response cache -/

/-- Claim C3 counterexample: with 101 fresh entries `k0 .. k100`
(inserted in that order) a hit on `k0` is served, yet the very next
insert evicts `k0` — the entry that was just read — while `k1`, whose
last access is the oldest, survives.  Eviction is insertion-order, not
least-recently-used, so the claim is false as stated. -/
theorem cacheEviction_counterexample :
    (getCached 200 "k0" bigCache).1 = some 0 ∧
    (getCached 200 "k0" bigCache).2 = bigCache ∧
    jsMapGet "k0" (setCache 201 "k101" 101 (getCached 200 "k0" bigCache).2) = none ∧
    jsMapGet "k1" (setCache 201 "k101" 101 (getCached 200 "k0" bigCache).2) = some (1, 1) := by
  decide

/-- Claim C3 (amended): the cache has bounded capacity, and an insert
while the size strictly exceeds 100 evicts the earliest-inserted entry
(the head of the insertion-ordered map) regardless of reads — a cache
hit returns the data without modifying the map, so reads do not refresh
recency and a just-read entry can be the one evicted; TTL expiry is
checked lazily on lookup, removing an entry exactly when its age is at
least the TTL at lookup time. -/
theorem cacheEviction_fifo (α : Type) (now now2 : Nat) (k k2 : String) (d : α)
    (x : String × (α × Nat)) (rest : Cache α) (e : α × Nat) (c : Cache α) :
    (100 < (x :: rest : Cache α).length →
      setCache now k d (x :: rest) = jsMapSet k (d, now) rest) ∧
    (jsMapGet k2 c = some e → now2 < e.2 + CACHE_TTL →
      getCached now2 k2 c = (some e.1, c)) ∧
    (jsMapGet k2 c = some e → ¬ now2 < e.2 + CACHE_TTL →
      getCached now2 k2 c = (none, jsMapDelete k2 c)) := by
  refine ⟨?_, ?_, ?_⟩
  · intro h
    simp only [setCache, if_pos h, jsMapFirstKey, jsMapDelete_cons_self]
  · intro hg ht
    exact getCached_hit now2 k2 c e hg ht
  · intro hg ht
    exact getCached_expired now2 k2 c e hg ht

/-- Claim C3 witness: the insertion-order eviction equation on the
101-entry cache, a fresh hit leaving the map untouched, and a lazy
expiry removal, all at concrete inputs. -/
theorem cacheEviction_fifo_witness :
    setCache 201 "k101" (101 : Nat) bigCache = jsMapSet "k101" ((101 : Nat), 201) bigCacheRest ∧
    getCached 5 "a" ([("a", ((7 : Nat), 0))] : Cache Nat) = (some 7, [("a", (7, 0))]) ∧
    getCached 70000 "a" ([("a", ((7 : Nat), 0))] : Cache Nat) = (none, []) :=
  ⟨(cacheEviction_fifo Nat 201 5 "k101" "a" 101 ("k0", (0, 0)) bigCacheRest (7, 0) []).1
      (by decide),
   (cacheEviction_fifo Nat 201 5 "k101" "a" 101 ("k0", (0, 0)) bigCacheRest (7, 0)
      [("a", (7, 0))]).2.1 (by decide) (by decide),
   (cacheEviction_fifo Nat 201 70000 "k101" "a" 101 ("k0", (0, 0)) bigCacheRest (7, 0)
      [("a", (7, 0))]).2.2 (by decide) (by decide)⟩

/- ### Parameter ranges offered by the UI -/

/-- Claim C7 counterexample (values in hundredths): the FilterPanel
kernel-size control is rendered with min 1 (stored 100), max 21, step 2,
so it allows the value 1 — which the claim says is never allowed — and
its sigma control is rendered with min 0, step 0.1, so it allows the
value 0, which the claim says is never allowed. -/
theorem paramRanges_counterexample :
    renderParameterRange "kernel_size" = ⟨100, 2100, 200⟩ ∧
    (100 : Int) ∈ sliderValues (renderParameterRange "kernel_size") ∧
    renderParameterRange "sigma" = ⟨0, 1000, 10⟩ ∧
    (0 : Int) ∈ sliderValues (renderParameterRange "sigma") := by
  decide

/-- Claim C7 (amended, values in hundredths): the NoisePanel denoise
controls preserve the reference ranges — kernel_size and the template
window allow exactly the odd values 3 to 21, the search window exactly
the odd values 7 to 51, sigma runs from 0.1 to 10, h from 1 to 30 — but
the FilterPanel controls do not: its kernel-size, ksize and d sliders
use min 1 with step 2 (allowing 1, an out-of-range value for the
reference system), and its sigma and strength sliders use min 0
(allowing 0). -/
theorem paramRanges_amended :
    jsMapGet "kernel_size" denoiseParamConfigs = some ⟨300, 2100, 200⟩ ∧
    sliderValues ⟨300, 2100, 200⟩ =
      [300, 500, 700, 900, 1100, 1300, 1500, 1700, 1900, 2100] ∧
    jsMapGet "template_window_size" denoiseParamConfigs = some ⟨300, 2100, 200⟩ ∧
    jsMapGet "search_window_size" denoiseParamConfigs = some ⟨700, 5100, 200⟩ ∧
    sliderValues ⟨700, 5100, 200⟩ =
      [700, 900, 1100, 1300, 1500, 1700, 1900, 2100, 2300, 2500, 2700, 2900, 3100,
       3300, 3500, 3700, 3900, 4100, 4300, 4500, 4700, 4900, 5100] ∧
    jsMapGet "sigma" denoiseParamConfigs = some ⟨10, 1000, 10⟩ ∧
    jsMapGet "h" denoiseParamConfigs = some ⟨100, 3000, 100⟩ ∧
    renderParameterRange "kernel_size" = ⟨100, 2100, 200⟩ ∧
    renderParameterRange "ksize" = ⟨100, 2100, 200⟩ ∧
    renderParameterRange "d" = ⟨100, 2100, 200⟩ ∧
    sliderValues ⟨100, 2100, 200⟩ =
      [100, 300, 500, 700, 900, 1100, 1300, 1500, 1700, 1900, 2100] ∧
    renderParameterRange "sigma" = ⟨0, 1000, 10⟩ ∧
    renderParameterRange "strength" = ⟨0, 500, 10⟩ := by
  decide

/- ### Global histogram equalization on a constant image -/

/-- Claim C8 counterexample: under the specified semantics
`output = round(255 * CDF(input) / total_pixels)`, the 4 by 4 all-128
image is not returned unchanged — every CDF value at the occupied level
equals the total pixel count, so every output pixel is 255, not 128. -/
theorem equalizeGlobal_counterexample : equalize_global img128 ≠ img128 := by
  decide

/-- Claim C8 (amended): `equalize_global` per the specified formula maps
the 4 by 4 all-128 grayscale image to the 4 by 4 all-255 image.  No
division by zero occurs — the denominator is the total pixel count 16 —
and the computation is exact integer arithmetic, so no NaN can arise;
but the single-value histogram yields CDF(128) = 16 = total, hence
round(255 * 16 / 16) = 255 for every pixel rather than an unchanged
image. -/
theorem equalizeGlobal_all128 :
    equalize_global img128 = List.replicate 4 (List.replicate 4 255) ∧
    totalPixels img128 = 16 ∧
    pixelCDF img128 128 = 16 := by
  decide

/- ### Atomicity of applyFilter on failure -/

/-- Claim C10 (confirmed): when a current image is loaded and the filter
request fails or is cancelled, `applyFilter` leaves `processedImage` and
`imageHistory` unchanged and resets `isLoading` to false; a cancelled
request (either the rejection produced by the abort interceptor or a
resolved result carrying the cancelled marker) is neither re-thrown nor
reported, while a genuine failure is reported via toast.error and
re-thrown with its message. -/
theorem applyFilter_atomic_on_failure (st : StoreState) (filterType : String)
    (params : List (String × JVal)) (now : Nat) (img : String)
    (hcur : st.currentImage = some img) :
    (∀ msg : String,
      (applyFilter st filterType params now (FilterOutcome.rejectedError msg)).state.processedImage =
        st.processedImage ∧
      (applyFilter st filterType params now (FilterOutcome.rejectedError msg)).state.imageHistory =
        st.imageHistory ∧
      (applyFilter st filterType params now (FilterOutcome.rejectedError msg)).state.isLoading =
        false ∧
      (applyFilter st filterType params now (FilterOutcome.rejectedError msg)).thrown = some msg ∧
      (applyFilter st filterType params now (FilterOutcome.rejectedError msg)).toastedError =
        some msg) ∧
    ((applyFilter st filterType params now FilterOutcome.rejectedCancelled).state.processedImage =
        st.processedImage ∧
      (applyFilter st filterType params now FilterOutcome.rejectedCancelled).state.imageHistory =
        st.imageHistory ∧
      (applyFilter st filterType params now FilterOutcome.rejectedCancelled).state.isLoading =
        false ∧
      (applyFilter st filterType params now FilterOutcome.rejectedCancelled).thrown = none ∧
      (applyFilter st filterType params now FilterOutcome.rejectedCancelled).toastedError =
        none) ∧
    (∀ r : FilterResp, r.cancelled = true →
      (applyFilter st filterType params now (FilterOutcome.resolved r)).state.processedImage =
        st.processedImage ∧
      (applyFilter st filterType params now (FilterOutcome.resolved r)).state.imageHistory =
        st.imageHistory ∧
      (applyFilter st filterType params now (FilterOutcome.resolved r)).state.isLoading = false ∧
      (applyFilter st filterType params now (FilterOutcome.resolved r)).thrown = none ∧
      (applyFilter st filterType params now (FilterOutcome.resolved r)).toastedError = none) := by
  refine ⟨?_, ?_, ?_⟩
  · intro msg
    simp [applyFilter, hcur]
  · simp [applyFilter, hcur]
  · intro r hr
    simp [applyFilter, hcur, hr]

/-- Claim C10 witness: the atomicity property evaluated at a concrete
store, a genuine failure and a cancellation. -/
theorem applyFilter_atomic_on_failure_witness :
    (applyFilter ⟨some "1", none, [], false⟩ "blur" [] 0
      (FilterOutcome.rejectedError "boom")).state.processedImage = none ∧
    (applyFilter ⟨some "1", none, [], false⟩ "blur" [] 0
      (FilterOutcome.rejectedError "boom")).state.imageHistory = [] ∧
    (applyFilter ⟨some "1", none, [], false⟩ "blur" [] 0
      (FilterOutcome.rejectedError "boom")).state.isLoading = false ∧
    (applyFilter ⟨some "1", none, [], false⟩ "blur" [] 0
      (FilterOutcome.rejectedError "boom")).thrown = some "boom" ∧
    (applyFilter ⟨some "1", none, [], false⟩ "blur" [] 0
      FilterOutcome.rejectedCancelled).thrown = none ∧
    (applyFilter ⟨some "1", none, [], false⟩ "blur" [] 0
      (FilterOutcome.resolved ⟨"u", false, true⟩)).toastedError = none :=
  ⟨((applyFilter_atomic_on_failure ⟨some "1", none, [], false⟩ "blur" [] 0 "1" rfl).1 "boom").1,
   ((applyFilter_atomic_on_failure ⟨some "1", none, [], false⟩ "blur" [] 0 "1" rfl).1 "boom").2.1,
   ((applyFilter_atomic_on_failure ⟨some "1", none, [], false⟩ "blur" [] 0 "1" rfl).1
      "boom").2.2.1,
   ((applyFilter_atomic_on_failure ⟨some "1", none, [], false⟩ "blur" [] 0 "1" rfl).1
      "boom").2.2.2.1,
   ((applyFilter_atomic_on_failure ⟨some "1", none, [], false⟩ "blur" [] 0 "1" rfl).2.1).2.2.2.1,
   ((applyFilter_atomic_on_failure ⟨some "1", none, [], false⟩ "blur" [] 0 "1" rfl).2.2
      ⟨"u", false, true⟩ rfl).2.2.2.2⟩
